import Mathlib

/-
Shallow embedding of src/packages/@glimmer/runtime/lib/compiler.ts
(the Glimmer layout compiler).

External collaborators (the scanner, the symbol-table constructor, the
opcode-builder DSL) are out of scope per the spec; the embedding records
exactly the arguments the compiler hands to them:
  - scanBlock(element, table, env)  is recorded as  CompileOutput.viaScanBlock
  - new Scanner(block, meta, env).scanLayout()  as  CompileOutput.viaScanner
  - each opcode-builder DSL call made by ComponentBuilder.dynamic is recorded
    as one Step in an ordered list.
Opaque host values (Environment, template meta, FunctionExpression closures,
helper references, block handles) are modelled as Nat identifiers.
-/

namespace GlimmerCompiler

/-- Wire-format expressions as constructed in compiler.ts.
`clientFunction fe` is `[Ops.ClientSideExpression, ClientSide.Ops.FunctionExpression, fe]`
with the host closure modelled by the identifier `fe`;
`fixThis locals` is `[Ops.FixThisBeforeWeMerge, locals]`;
`raw n` stands for an opaque expression coming from the template. -/
inductive Expression where
  | clientFunction (fe : Nat)
  | fixThis (locals : List String)
  | raw (n : Nat)
deriving DecidableEq

/-- Wire-format statements as constructed in compiler.ts.  The `block`
constructor mirrors `[Ops.Block, path, params, hash, { locals, statements }, inverse]`
(hash and inverse are always null at the construction sites in this file, so
they are carried as `Option Unit`).  `other n` stands for an opaque statement
coming from the template. -/
inductive Statement where
  | block (path : List String) (params : List Expression) (hash : Option Unit)
      (locals : List String) (body : List Statement) (inverse : Option Unit)
  | clientOpenDynamicElement (tagExpr : Expression)
  | yield (target : String) (params : List Expression)
  | flushElement
  | closeElement
  | staticAttr (name value : String) (ns : Option String)
  | dynamicAttr (name : String) (value : Expression) (ns : Option String)
  | clientOpenComponentElement (tag : Option String)
  | other (n : Nat)

/-- The `block` field of a `SerializedTemplate`: statements plus the named /
yields / hasPartials metadata and the optional prelude / head statement
lists used by the layout strategies. -/
structure SerializedBlock where
  statements : List Statement
  named : List String
  yields : List String
  hasPartials : Bool
  prelude : Option (List Statement)
  head : Option (List Statement)

/-- `WireFormat.SerializedTemplate`: template meta (opaque) plus its block. -/
structure WireTemplate where
  meta : Nat
  block : SerializedBlock

/-- Result of the external `layout` symbol-table constructor
(`layoutTable(meta, named, yields, hasPartials)`); modelled as a record of
the arguments the compiler passes to it. -/
structure LayoutTable where
  meta : Nat
  named : List String
  yields : List String
  hasPartials : Bool

/-- The external symbol-table constructor, recorded as its argument tuple. -/
def layoutTable (meta : Nat) (named : List String) (yields : List String)
    (hasPartials : Bool) : LayoutTable :=
  ⟨meta, named, yields, hasPartials⟩

/-- `ComponentTagBuilder` state: both flags start null, both recorded names
start null (compiler.ts lines 185-189). -/
structure ComponentTagBuilder where
  isDynamic : Option Bool := none
  isStatic : Option Bool := none
  staticTagName : Option String := none
  dynamicTagName : Option Expression := none

/-- `getDynamic()`: returns `dynamicTagName` when `isDynamic` is truthy
(the only truthy inhabitant of `Option Bool` under JS semantics is
`some true`), and undefined otherwise. -/
def ComponentTagBuilder.getDynamic (t : ComponentTagBuilder) : Option Expression :=
  match t.isDynamic with
  | some true => t.dynamicTagName
  | _ => none

/-- `getStatic()`: returns `staticTagName` when `isStatic` is truthy. -/
def ComponentTagBuilder.getStatic (t : ComponentTagBuilder) : Option String :=
  match t.isStatic with
  | some true => t.staticTagName
  | _ => none

/-- `static(tagName)`: sets `isStatic` and records the name.  Note the source
does not touch `isDynamic` or `dynamicTagName`. -/
def ComponentTagBuilder.static (t : ComponentTagBuilder) (tagName : String) :
    ComponentTagBuilder :=
  { t with isStatic := some true, staticTagName := some tagName }

/-- `dynamic(tagName)`: sets `isDynamic` and records the client-side function
expression.  Note the source does not touch `isStatic` or `staticTagName`. -/
def ComponentTagBuilder.dynamic (t : ComponentTagBuilder) (tagName : Nat) :
    ComponentTagBuilder :=
  { t with isDynamic := some true,
           dynamicTagName := some (Expression.clientFunction tagName) }

/-- `ComponentAttrsBuilder`: an append-only buffer of element-head
statements. -/
structure ComponentAttrsBuilder where
  buffer : List Statement := []

/-- `static(name, value)`: pushes `[Ops.StaticAttr, name, value, null]`. -/
def ComponentAttrsBuilder.static (a : ComponentAttrsBuilder)
    (name value : String) : ComponentAttrsBuilder :=
  { a with buffer := a.buffer ++ [Statement.staticAttr name value none] }

/-- `dynamic(name, value)`: pushes
`[Ops.DynamicAttr, name, [ClientSideExpression, FunctionExpression, value], null]`. -/
def ComponentAttrsBuilder.dynamic (a : ComponentAttrsBuilder)
    (name : String) (value : Nat) : ComponentAttrsBuilder :=
  { a with buffer := a.buffer ++
      [Statement.dynamicAttr name (Expression.clientFunction value) none] }

/-- Output of a strategy `compile()`: since scanning is an external
collaborator, the output records which scanning entry point was reached and
with which arguments.  `viaScanBlock element table env` records
`scanBlock(element, table, env)` (dynamic-tag Wrapped path; the resulting
`RawTemplate` pairs the scanned statements with `table`);
`viaScanner block meta env` records `new Scanner(block, meta, env).scanLayout()`
(static-tag Wrapped path and Unwrapped path). -/
inductive CompileOutput where
  | viaScanBlock (element : List Statement) (table : LayoutTable) (env : Nat)
  | viaScanner (block : SerializedBlock) (meta : Nat) (env : Nat)

/-- The synthetic `with` block built in WrappedBuilder.compile (lines 133-141):
`[Ops.Block, ['with'], [dynamicTag], null, { locals: ['tag'], statements:
[OpenDynamicElement, Yield '%attrs%', ...attrs buffer, FlushElement] }, null]`. -/
def openGuardBlock (dynamicTag : Expression) (buf : List Statement) : Statement :=
  Statement.block ["with"] [dynamicTag] none ["tag"]
    ([Statement.clientOpenDynamicElement (Expression.fixThis ["tag"]),
      Statement.yield "%attrs%" []] ++ buf ++ [Statement.flushElement])
    none

/-- The synthetic `if` block built in WrappedBuilder.compile (lines 143-148):
`[Ops.Block, ['if'], [dynamicTag], null, { locals: [], statements:
[CloseElement] }, null]`. -/
def closeGuardBlock (dynamicTag : Expression) : Statement :=
  Statement.block ["if"] [dynamicTag] none [] [Statement.closeElement] none

/-- `WrappedBuilder`: owns a fresh tag builder and a fresh attrs builder
(compiler.ts lines 85-89). -/
structure WrappedBuilder where
  env : Nat
  layout : WireTemplate
  tag : ComponentTagBuilder := {}
  attrs : ComponentAttrsBuilder := {}

/-- `WrappedBuilder.compile` (compiler.ts lines 91-163).  The JS truthiness
test `block.prelude && block.head` holds exactly when both are non-null
(JS arrays, even empty ones, are truthy). -/
def WrappedBuilder.compile (b : WrappedBuilder) : CompileOutput :=
  let block := b.layout.block
  let statements :=
    match block.prelude, block.head with
    | some p, some h => p ++ h ++ block.statements
    | _, _ => block.statements
  match b.tag.getDynamic with
  | some dynamicTag =>
      let element :=
        openGuardBlock dynamicTag b.attrs.buffer ::
          (statements ++ [closeGuardBlock dynamicTag])
      let table := layoutTable b.layout.meta block.named
        (block.yields ++ ["%attrs%"]) block.hasPartials
      CompileOutput.viaScanBlock element table b.env
  | none =>
      let staticTag := b.tag.getStatic
      let prelude := [Statement.clientOpenComponentElement staticTag]
      let head := b.attrs.buffer
      CompileOutput.viaScanner
        { block with prelude := some prelude, head := some head }
        b.layout.meta b.env

/-- The symbol table passed to `scanBlock` on the dynamic-tag path
(compiler.ts line 151). -/
def wrappedDynamicTable (b : WrappedBuilder) : LayoutTable :=
  layoutTable b.layout.meta b.layout.block.named
    (b.layout.block.yields ++ ["%attrs%"]) b.layout.block.hasPartials

/-- `UnwrappedBuilder`: owns only a fresh attrs builder (lines 166-169). -/
structure UnwrappedBuilder where
  env : Nat
  layout : WireTemplate
  attrs : ComponentAttrsBuilder := {}

/-- `UnwrappedBuilder`'s `tag` getter (lines 171-173): always throws. -/
def UnwrappedBuilder.tag (_ : UnwrappedBuilder) : Except String ComponentTagBuilder :=
  Except.error "BUG: Cannot call tag on an UnwrappedBuilder"

/-- `UnwrappedBuilder.compile` (lines 175-182): the attrs buffer is
concatenated in front of the template's own head statements (`block.head`
is truthy exactly when non-null). -/
def UnwrappedBuilder.compile (b : UnwrappedBuilder) : CompileOutput :=
  let block := b.layout.block
  let head :=
    match block.head with
    | some h => b.attrs.buffer ++ h
    | none => b.attrs.buffer
  CompileOutput.viaScanner { block with head := some head } b.layout.meta b.env

/-- The strategy bound inside the facade. -/
inductive InnerBuilder where
  | wrapped (w : WrappedBuilder)
  | unwrapped (u : UnwrappedBuilder)

/-- `ComponentLayoutBuilder` facade (lines 59-83): `inner` is undefined until
`wrapLayout` or `fromLayout` assigns it. -/
structure ComponentLayoutBuilder where
  env : Nat
  inner : Option InnerBuilder := none

/-- `wrapLayout(layout)` (lines 64-66): unconditionally assigns a freshly
constructed WrappedBuilder (with fresh tag and attrs builders). -/
def ComponentLayoutBuilder.wrapLayout (b : ComponentLayoutBuilder)
    (layout : WireTemplate) : ComponentLayoutBuilder :=
  { b with inner := some (InnerBuilder.wrapped
      { env := b.env, layout := layout, tag := {}, attrs := {} }) }

/-- `fromLayout(layout)` (lines 68-70): unconditionally assigns a freshly
constructed UnwrappedBuilder (with a fresh attrs builder). -/
def ComponentLayoutBuilder.fromLayout (b : ComponentLayoutBuilder)
    (layout : WireTemplate) : ComponentLayoutBuilder :=
  { b with inner := some (InnerBuilder.unwrapped
      { env := b.env, layout := layout, attrs := {} }) }

/-- `compile()` (lines 72-74): dereferences `this.inner`; when no strategy
was ever bound this is a TypeError (undefined has no method `compile`). -/
def ComponentLayoutBuilder.compile (b : ComponentLayoutBuilder) :
    Except String CompileOutput :=
  match b.inner with
  | none => Except.error "TypeError: this.inner is undefined"
  | some (InnerBuilder.wrapped w) => Except.ok w.compile
  | some (InnerBuilder.unwrapped u) => Except.ok u.compile

/-- `ComponentArgs` = `[params, hash, default, inverse]` (opcode-builder.ts
interface).  `ComponentBuilder.dynamic` destructures it as
`let [, hash, block, inverse] = args` — the positional params are unused.
Block handles are opaque (`Option Nat`, null allowed). -/
structure ComponentArgs where
  params : List Expression
  hash : List (String × Expression)
  blockArg : Option Nat
  inverse : Option Nat

/-- One opcode-builder DSL call made by `ComponentBuilder.dynamic`, in the
order the source issues them.  Local slots are identified by allocation
order (`b.local()` yields 0 then 1).  `compiledArgs hash` marks the call to
the external `compileComponentArgs(hash, b)`; `pushComponentArgs` carries the
positional count and the named count (`count`) — the external `slots` value is
not modelled.  `invokeDynamic names` records the
`InvokeDynamicLayout(null, names)` descriptor. -/
inductive Step where
  | evalResolvedHelper (helper : Nat) (arg0 arg1 : Option Expression)
  | setLocal (slot : Nat)
  | getLocal (slot : Nat)
  | test (mode : String)
  | jumpUnless (label : String)
  | pushDynamicComponentManager (definitionSlot : Nat)
  | setComponentState (stateSlot : Nat)
  | pushBlock (handle : Option Nat)
  | compiledArgs (hash : List (String × Expression))
  | pushDynamicScope
  | pushComponentArgs (positional count : Nat)
  | createComponent (stateSlot : Nat) (dynamicInvocation splattributes : Bool)
  | registerComponentDestructor (stateSlot : Nat)
  | beginComponentTransaction
  | getComponentSelf (stateSlot : Nat)
  | getComponentLayout (stateSlot : Nat)
  | invokeDynamic (names : List String)
  | didCreateElement (stateSlot : Nat)
  | didRenderLayout (stateSlot : Nat)
  | popScope
  | popDynamicScope
  | commitComponentTransaction
deriving DecidableEq

/-- `ComponentBuilder.dynamic` (compiler.ts lines 249-292): the guard
`if (!definitionArgs || definitionArgs.length === 0) throw ...` runs before
any opcode-builder call, so on failure the step list is empty (the error
carries no partial program).  On success the steps are the DSL calls in
source order; the resolution expression receives only `definitionArgs[0]`
and `definitionArgs[1]` (undefined past the end, modelled by `Option`). -/
def ComponentBuilder.dynamic (definitionArgs : Option (List Expression))
    (getDefinition : Nat) (args : ComponentArgs) : Except String (List Step) :=
  let hash := args.hash
  let block := args.blockArg
  let inverse := args.inverse
  match definitionArgs with
  | none => Except.error "Dynamic syntax without an argument"
  | some dargs =>
    if dargs.length = 0 then
      Except.error "Dynamic syntax without an argument"
    else
      let definitionSlot := 0
      let stateSlot := 1
      let names := hash.map Prod.fst
      Except.ok
        [Step.evalResolvedHelper getDefinition (dargs.get? 0) (dargs.get? 1),
         Step.setLocal definitionSlot,
         Step.getLocal definitionSlot,
         Step.test "simple",
         Step.jumpUnless "END",
         Step.pushDynamicComponentManager definitionSlot,
         Step.setComponentState stateSlot,
         Step.pushBlock block,
         Step.pushBlock inverse,
         Step.compiledArgs hash,
         Step.pushDynamicScope,
         Step.pushComponentArgs 0 hash.length,
         Step.createComponent stateSlot true false,
         Step.registerComponentDestructor stateSlot,
         Step.beginComponentTransaction,
         Step.getComponentSelf stateSlot,
         Step.getComponentLayout stateSlot,
         Step.invokeDynamic names,
         Step.didCreateElement stateSlot,
         Step.didRenderLayout stateSlot,
         Step.popScope,
         Step.popDynamicScope,
         Step.commitComponentTransaction]

/-- A configuration call on the tag descriptor, for reasoning about
operation sequences. -/
inductive TagOp where
  | setStatic (name : String)
  | setDynamic (fe : Nat)
deriving DecidableEq

/-- Apply one tag-descriptor call. -/
def ComponentTagBuilder.applyOp (t : ComponentTagBuilder) : TagOp → ComponentTagBuilder
  | TagOp.setStatic n => t.static n
  | TagOp.setDynamic f => t.dynamic f

/-- Apply a sequence of tag-descriptor calls, left to right. -/
def applyTagOps (t : ComponentTagBuilder) : List TagOp → ComponentTagBuilder
  | [] => t
  | op :: rest => applyTagOps (t.applyOp op) rest

/-- A configuration call on the attrs builder. -/
inductive AttrOp where
  | addStatic (name value : String)
  | addDynamic (name : String) (fe : Nat)
deriving DecidableEq

/-- The element-head statement one attrs-builder call appends. -/
def attrOpStatement : AttrOp → Statement
  | AttrOp.addStatic n v => Statement.staticAttr n v none
  | AttrOp.addDynamic n f =>
      Statement.dynamicAttr n (Expression.clientFunction f) none

/-- Apply one attrs-builder call. -/
def ComponentAttrsBuilder.applyOp (a : ComponentAttrsBuilder) : AttrOp → ComponentAttrsBuilder
  | AttrOp.addStatic n v => a.static n v
  | AttrOp.addDynamic n f => a.dynamic n f

/-- Apply a sequence of attrs-builder calls, left to right. -/
def applyAttrOps (a : ComponentAttrsBuilder) : List AttrOp → ComponentAttrsBuilder
  | [] => a
  | op :: rest => applyAttrOps (a.applyOp op) rest

/-- Observer: the statement list handed to `scanBlock` (empty when the
compilation went through `Scanner` instead). -/
def CompileOutput.scanBlockStatements : CompileOutput → List Statement
  | CompileOutput.viaScanBlock el _ _ => el
  | CompileOutput.viaScanner _ _ _ => []

/-- Observer: the `head` list of the block handed to `Scanner`. -/
def CompileOutput.scannerHead : CompileOutput → Option (List Statement)
  | CompileOutput.viaScanner blk _ _ => blk.head
  | CompileOutput.viaScanBlock _ _ _ => none

/-- Number of occurrences of `e` among the guard parameters of block
statements, recursively (each occurrence is one runtime evaluation of the
expression when the block is entered). -/
def guardEvalCount (e : Expression) : List Statement → Nat
  | [] => 0
  | Statement.block _ params _ _ body _ :: rest =>
      List.count e params + guardEvalCount e body + guardEvalCount e rest
  | _ :: rest => guardEvalCount e rest

/-- Concrete template block with no statements and no prelude/head. -/
def blkEmpty : SerializedBlock :=
  { statements := [], named := [], yields := [], hasPartials := false,
    prelude := none, head := none }

/-- Concrete wrapped builder with a dynamic tag and an empty body. -/
def wDyn : WrappedBuilder :=
  { env := 0, layout := { meta := 0, block := blkEmpty },
    tag := ComponentTagBuilder.dynamic {} 7, attrs := {} }

/-- Concrete template block that declares its own head attribute. -/
def blkWithHead : SerializedBlock :=
  { statements := [Statement.other 0], named := [], yields := [],
    hasPartials := false, prelude := none,
    head := some [Statement.staticAttr "id" "y" none] }

/-- Concrete wrapped builder on the static-tag path: tag `div`, one buffered
attribute, and a template that declares its own head attribute. -/
def wStatic : WrappedBuilder :=
  { env := 0, layout := { meta := 0, block := blkWithHead },
    tag := ComponentTagBuilder.static {} "div",
    attrs := ComponentAttrsBuilder.static {} "class" "x" }

/-- Concrete unwrapped builder over the same template. -/
def uConcrete : UnwrappedBuilder :=
  { env := 0, layout := { meta := 0, block := blkWithHead },
    attrs := ComponentAttrsBuilder.static {} "class" "x" }

/-- Concrete template block with a prelude but no head. -/
def blkPreludeOnly : SerializedBlock :=
  { statements := [Statement.other 0], named := [], yields := [],
    hasPartials := false, prelude := some [Statement.other 1], head := none }

/-- Concrete wrapped builder with a dynamic tag over a template that has a
prelude but no head. -/
def wPreludeOnly : WrappedBuilder :=
  { env := 0, layout := { meta := 0, block := blkPreludeOnly },
    tag := ComponentTagBuilder.dynamic {} 3, attrs := {} }

/-- Concrete invocation args: empty hash, no blocks. -/
def argsEmpty : ComponentArgs :=
  { params := [], hash := [], blockArg := none, inverse := none }

/-- The step list `ComponentBuilder.dynamic (some [raw 0]) 0 argsEmpty`
produces. -/
def stepsConcrete : List Step :=
  [Step.evalResolvedHelper 0 (some (Expression.raw 0)) none,
   Step.setLocal 0,
   Step.getLocal 0,
   Step.test "simple",
   Step.jumpUnless "END",
   Step.pushDynamicComponentManager 0,
   Step.setComponentState 1,
   Step.pushBlock none,
   Step.pushBlock none,
   Step.compiledArgs [],
   Step.pushDynamicScope,
   Step.pushComponentArgs 0 0,
   Step.createComponent 1 true false,
   Step.registerComponentDestructor 1,
   Step.beginComponentTransaction,
   Step.getComponentSelf 1,
   Step.getComponentLayout 1,
   Step.invokeDynamic [],
   Step.didCreateElement 1,
   Step.didRenderLayout 1,
   Step.popScope,
   Step.popDynamicScope,
   Step.commitComponentTransaction]

/- Helper lemmas -/

theorem guardEvalCount_append (e : Expression) (l1 l2 : List Statement) :
    guardEvalCount e (l1 ++ l2) = guardEvalCount e l1 + guardEvalCount e l2 := by
  induction l1 with
  | nil => simp [guardEvalCount]
  | cons s rest ih =>
    cases s
    all_goals simp only [List.cons_append, guardEvalCount, ih]
    all_goals try omega

theorem applyAttrOps_buffer (a : ComponentAttrsBuilder) (ops : List AttrOp) :
    (applyAttrOps a ops).buffer = a.buffer ++ ops.map attrOpStatement := by
  induction ops generalizing a with
  | nil => simp [applyAttrOps]
  | cons op rest ih =>
    rw [show applyAttrOps a (op :: rest) = applyAttrOps (a.applyOp op) rest
      from rfl, ih]
    cases op <;>
      simp [ComponentAttrsBuilder.applyOp, ComponentAttrsBuilder.static,
        ComponentAttrsBuilder.dynamic, attrOpStatement]

theorem applyTagOps_isStatic (t : ComponentTagBuilder) (ops : List TagOp) :
    (applyTagOps t ops).isStatic = some true ↔
      t.isStatic = some true ∨ ∃ m, TagOp.setStatic m ∈ ops := by
  induction ops generalizing t with
  | nil => simp [applyTagOps]
  | cons op rest ih =>
    rw [show applyTagOps t (op :: rest) = applyTagOps (t.applyOp op) rest
      from rfl, ih]
    cases op with
    | setStatic m =>
      simp [ComponentTagBuilder.applyOp, ComponentTagBuilder.static,
        List.mem_cons]
    | setDynamic f =>
      simp [ComponentTagBuilder.applyOp, ComponentTagBuilder.dynamic,
        List.mem_cons]

theorem applyTagOps_isDynamic (t : ComponentTagBuilder) (ops : List TagOp) :
    (applyTagOps t ops).isDynamic = some true ↔
      t.isDynamic = some true ∨ ∃ f, TagOp.setDynamic f ∈ ops := by
  induction ops generalizing t with
  | nil => simp [applyTagOps]
  | cons op rest ih =>
    rw [show applyTagOps t (op :: rest) = applyTagOps (t.applyOp op) rest
      from rfl, ih]
    cases op with
    | setStatic m =>
      simp [ComponentTagBuilder.applyOp, ComponentTagBuilder.static,
        List.mem_cons]
    | setDynamic f =>
      simp [ComponentTagBuilder.applyOp, ComponentTagBuilder.dynamic,
        List.mem_cons]

/- Claim theorems -/

/-- C1 counterexample: for a Wrapped compilation with a dynamic tag (and an
empty body, so no other guards exist), the emitted statement sequence
evaluates the tag expression TWICE as a guard parameter — once in the `with`
block guarding the element open and once more in the `if` block guarding the
element close — not exactly once as the claim states. -/
theorem wrapped_dynamic_single_tag_eval_counterexample :
    guardEvalCount (Expression.clientFunction 7)
      (CompileOutput.scanBlockStatements wDyn.compile) = 2 ∧
    guardEvalCount (Expression.clientFunction 7)
      (CompileOutput.scanBlockStatements wDyn.compile) ≠ 1 := by
  have h2 : guardEvalCount (Expression.clientFunction 7)
      (CompileOutput.scanBlockStatements wDyn.compile) = 2 := by
    simp [wDyn, blkEmpty, WrappedBuilder.compile, ComponentTagBuilder.dynamic,
      ComponentTagBuilder.getDynamic, CompileOutput.scanBlockStatements,
      openGuardBlock, closeGuardBlock, guardEvalCount, layoutTable,
      List.count_cons, List.count_nil]
  exact ⟨h2, by rw [h2]; omega⟩

/-- C1 (amended): for every Wrapped compilation with a dynamic tag
expression `e`, the emitted statement sequence contains exactly TWO guard
evaluations of `e` beyond those already inside the attribute buffer or the
body statements: the open sequence is guarded by a `with` block whose sole
parameter is `e`, and the close sequence by an `if` block whose sole
parameter is that same expression `e`, each evaluating `e` separately. -/
theorem wrapped_dynamic_two_guard_evals
    (w : WrappedBuilder) (e : Expression) (h : w.tag.getDynamic = some e) :
    ∃ middle,
      w.compile = CompileOutput.viaScanBlock
        (openGuardBlock e w.attrs.buffer :: (middle ++ [closeGuardBlock e]))
        (wrappedDynamicTable w) w.env ∧
      guardEvalCount e
          (openGuardBlock e w.attrs.buffer :: (middle ++ [closeGuardBlock e])) =
        2 + guardEvalCount e w.attrs.buffer + guardEvalCount e middle := by
  refine ⟨(match w.layout.block.prelude, w.layout.block.head with
    | some p, some hd => p ++ hd ++ w.layout.block.statements
    | _, _ => w.layout.block.statements), ?_, ?_⟩
  · simp only [WrappedBuilder.compile, h, wrappedDynamicTable, layoutTable]
  · simp [guardEvalCount, openGuardBlock, closeGuardBlock,
      guardEvalCount_append, List.count_cons, List.count_nil]
    omega

/-- C1 witness: the amended theorem applied to the concrete dynamic-tag
builder `wDyn`. -/
theorem wrapped_dynamic_two_guard_evals_witness :
    ∃ middle,
      wDyn.compile = CompileOutput.viaScanBlock
        (openGuardBlock (Expression.clientFunction 7) wDyn.attrs.buffer ::
          (middle ++ [closeGuardBlock (Expression.clientFunction 7)]))
        (wrappedDynamicTable wDyn) wDyn.env ∧
      guardEvalCount (Expression.clientFunction 7)
          (openGuardBlock (Expression.clientFunction 7) wDyn.attrs.buffer ::
            (middle ++ [closeGuardBlock (Expression.clientFunction 7)])) =
        2 + guardEvalCount (Expression.clientFunction 7) wDyn.attrs.buffer +
          guardEvalCount (Expression.clientFunction 7) middle :=
  wrapped_dynamic_two_guard_evals wDyn (Expression.clientFunction 7) rfl

/-- C2 counterexample: on the Wrapped static-tag path the Attribute Buffer
REPLACES the template's own head statements instead of being prepended to
them: for the concrete builder `wStatic` (buffer `class="x"`, template head
`id="y"`) the block handed to the scanner has head exactly the buffer — the
template's `id="y"` head attribute has been dropped, so the head is not the
claimed `buffer ++ template head`. -/
theorem attr_buffer_static_path_replaces_counterexample :
    CompileOutput.scannerHead wStatic.compile =
      some [Statement.staticAttr "class" "x" none] ∧
    CompileOutput.scannerHead wStatic.compile ≠
      some [Statement.staticAttr "class" "x" none,
            Statement.staticAttr "id" "y" none] := by
  refine ⟨rfl, ?_⟩
  intro hEq
  rw [show CompileOutput.scannerHead wStatic.compile =
    some [Statement.staticAttr "class" "x" none] from rfl] at hEq
  simp at hEq

/-- C2 (amended): Attribute Buffer entries are emitted in insertion order;
in the Unwrapped strategy they are placed directly before the template's own
declared head statements; in the Wrapped static-tag path the buffer becomes
the entire head list handed to the scanner, REPLACING the template's own
head statements; in the Wrapped dynamic-tag path the buffer is spliced (in
order) into the `with` guard block that precedes every body statement. -/
theorem attr_buffer_order_and_placement
    (ops : List AttrOp) (u : UnwrappedBuilder) (ws wd : WrappedBuilder)
    (e : Expression)
    (hs : ws.tag.getDynamic = none) (hd : wd.tag.getDynamic = some e) :
    (applyAttrOps {} ops).buffer = ops.map attrOpStatement ∧
    u.compile = CompileOutput.viaScanner
      { u.layout.block with
        head := some (u.attrs.buffer ++ u.layout.block.head.getD []) }
      u.layout.meta u.env ∧
    ws.compile = CompileOutput.viaScanner
      { ws.layout.block with
        prelude := some [Statement.clientOpenComponentElement ws.tag.getStatic],
        head := some ws.attrs.buffer }
      ws.layout.meta ws.env ∧
    (∃ middle, wd.compile = CompileOutput.viaScanBlock
      (openGuardBlock e wd.attrs.buffer :: (middle ++ [closeGuardBlock e]))
      (wrappedDynamicTable wd) wd.env) := by
  refine ⟨?_, ?_, ?_, ?_⟩
  · rw [applyAttrOps_buffer]
    rfl
  · cases hh : u.layout.block.head <;>
      simp [UnwrappedBuilder.compile, hh]
  · simp only [WrappedBuilder.compile, hs]
  · exact ⟨(match wd.layout.block.prelude, wd.layout.block.head with
      | some p, some hd2 => p ++ hd2 ++ wd.layout.block.statements
      | _, _ => wd.layout.block.statements), by
        simp only [WrappedBuilder.compile, hd, wrappedDynamicTable, layoutTable]⟩

/-- C2 witness: the amended theorem applied to the concrete builders
`uConcrete` (Unwrapped), `wStatic` (Wrapped, static tag) and `wDyn`
(Wrapped, dynamic tag). -/
theorem attr_buffer_order_and_placement_witness :
    (applyAttrOps {} [AttrOp.addStatic "class" "x"]).buffer =
      [AttrOp.addStatic "class" "x"].map attrOpStatement ∧
    uConcrete.compile = CompileOutput.viaScanner
      { uConcrete.layout.block with
        head := some (uConcrete.attrs.buffer ++
          uConcrete.layout.block.head.getD []) }
      uConcrete.layout.meta uConcrete.env ∧
    wStatic.compile = CompileOutput.viaScanner
      { wStatic.layout.block with
        prelude := some
          [Statement.clientOpenComponentElement wStatic.tag.getStatic],
        head := some wStatic.attrs.buffer }
      wStatic.layout.meta wStatic.env ∧
    (∃ middle, wDyn.compile = CompileOutput.viaScanBlock
      (openGuardBlock (Expression.clientFunction 7) wDyn.attrs.buffer ::
        (middle ++ [closeGuardBlock (Expression.clientFunction 7)]))
      (wrappedDynamicTable wDyn) wDyn.env) :=
  attr_buffer_order_and_placement [AttrOp.addStatic "class" "x"]
    uConcrete wStatic wDyn (Expression.clientFunction 7) rfl rfl

/-- C3 counterexample: after the operation sequence
`[setStatic "div", setDynamic 0]` on a fresh Tag Descriptor BOTH the static
flag and the dynamic flag are set — `setDynamic` does not clear the static
setting (and symmetrically `setStatic` does not clear the dynamic one), so
the claimed invariant "at most one of the flags is ever set" is false. -/
theorem tag_descriptor_both_flags_counterexample :
    (applyTagOps {} [TagOp.setStatic "div", TagOp.setDynamic 0]).isStatic =
      some true ∧
    (applyTagOps {} [TagOp.setStatic "div", TagOp.setDynamic 0]).isDynamic =
      some true :=
  ⟨rfl, rfl⟩

/-- C3 (amended): `setStatic(name)` records the literal name and sets the
static flag, `setDynamic(expr)` records the expression and sets the dynamic
flag, and NEITHER call clears the other's recorded setting; consequently,
after any operation sequence starting from a fresh descriptor, the static
flag is set iff the sequence contains a `setStatic`, and the dynamic flag is
set iff it contains a `setDynamic` (so both can be set simultaneously). -/
theorem tag_descriptor_records_without_clearing
    (t : ComponentTagBuilder) (n : String) (f : Nat) (ops : List TagOp) :
    ((t.static n).isStatic = some true ∧
     (t.static n).staticTagName = some n ∧
     (t.static n).isDynamic = t.isDynamic ∧
     (t.static n).dynamicTagName = t.dynamicTagName) ∧
    ((t.dynamic f).isDynamic = some true ∧
     (t.dynamic f).dynamicTagName = some (Expression.clientFunction f) ∧
     (t.dynamic f).isStatic = t.isStatic ∧
     (t.dynamic f).staticTagName = t.staticTagName) ∧
    ((applyTagOps {} ops).isStatic = some true ↔
      ∃ m, TagOp.setStatic m ∈ ops) ∧
    ((applyTagOps {} ops).isDynamic = some true ↔
      ∃ g, TagOp.setDynamic g ∈ ops) := by
  refine ⟨⟨rfl, rfl, rfl, rfl⟩, ⟨rfl, rfl, rfl, rfl⟩, ?_, ?_⟩
  · rw [applyTagOps_isStatic]
    simp
  · rw [applyTagOps_isDynamic]
    simp

/-- C5: compiling a dynamic component invocation whose definition-argument
list is absent (null) or empty fails synchronously with the error
"Dynamic syntax without an argument", and no opcode of the invocation
sequence is emitted (the error result carries no step list at all). -/
theorem dynamic_invocation_empty_args_fails (getDefinition : Nat)
    (args : ComponentArgs) :
    ComponentBuilder.dynamic none getDefinition args =
      Except.error "Dynamic syntax without an argument" ∧
    ComponentBuilder.dynamic (some []) getDefinition args =
      Except.error "Dynamic syntax without an argument" :=
  ⟨rfl, rfl⟩

/-- C6: reading the `tag` descriptor of an Unwrapped-strategy builder always
fails immediately with an error, for every such builder. -/
theorem unwrapped_tag_access_fails (u : UnwrappedBuilder) :
    u.tag = Except.error "BUG: Cannot call tag on an UnwrappedBuilder" :=
  rfl

/-- C7: `compile()` on a Layout Builder on which neither bind operation was
ever called fails (the unbound facade dereferences an undefined strategy),
and calling `wrapLayout` / `fromLayout` on ANY facade state — including one
that already has a bound strategy — silently replaces the bound strategy
with a fresh one built from the supplied layout. -/
theorem layout_builder_unbound_compile_fails_and_rebind_replaces
    (env : Nat) (b : ComponentLayoutBuilder) (l l' : WireTemplate) :
    ({ env := env, inner := none } : ComponentLayoutBuilder).compile =
      Except.error "TypeError: this.inner is undefined" ∧
    (∃ w, (b.wrapLayout l).inner = some (InnerBuilder.wrapped w) ∧
      w.layout = l) ∧
    (∃ u, (b.fromLayout l').inner = some (InnerBuilder.unwrapped u) ∧
      u.layout = l') :=
  ⟨rfl, ⟨_, rfl, rfl⟩, ⟨_, rfl, rfl⟩⟩

/-- C8: the helper-based resolution expression receives only the first two
entries of the definition-argument list, so compilation of a dynamic
invocation depends only on `definitionArgs.take 2`: arguments at index 2 and
beyond are silently ignored (the whole compilation result is unchanged by
dropping them). -/
theorem dynamic_invocation_uses_first_two_definition_args
    (d : List Expression) (getDefinition : Nat) (args : ComponentArgs) :
    ComponentBuilder.dynamic (some d) getDefinition args =
      ComponentBuilder.dynamic (some (d.take 2)) getDefinition args := by
  match d with
  | [] => rfl
  | [_] => rfl
  | _ :: _ :: _ => rfl

/-- C9: in the Wrapped dynamic-tag path the template's prelude and head
statement lists are spliced into the body only when BOTH are present; when
at least one of them is absent, both are omitted and only the main statement
list appears between the two guard blocks. -/
theorem wrapped_dynamic_prelude_head_both_or_neither
    (w : WrappedBuilder) (e : Expression) (h : w.tag.getDynamic = some e) :
    (∀ p hd, w.layout.block.prelude = some p → w.layout.block.head = some hd →
      w.compile = CompileOutput.viaScanBlock
        (openGuardBlock e w.attrs.buffer ::
          ((p ++ hd ++ w.layout.block.statements) ++ [closeGuardBlock e]))
        (wrappedDynamicTable w) w.env) ∧
    ((w.layout.block.prelude = none ∨ w.layout.block.head = none) →
      w.compile = CompileOutput.viaScanBlock
        (openGuardBlock e w.attrs.buffer ::
          (w.layout.block.statements ++ [closeGuardBlock e]))
        (wrappedDynamicTable w) w.env) := by
  constructor
  · intro p hd hp hh
    simp only [WrappedBuilder.compile, h, hp, hh, wrappedDynamicTable,
      layoutTable]
  · intro hor
    rcases hor with hp | hh
    · cases hh2 : w.layout.block.head <;>
        simp only [WrappedBuilder.compile, h, hp, hh2, wrappedDynamicTable,
          layoutTable]
    · cases hp2 : w.layout.block.prelude <;>
        simp only [WrappedBuilder.compile, h, hh, hp2, wrappedDynamicTable,
          layoutTable]

/-- C9 witness: the theorem applied to the concrete builder `wPreludeOnly`,
whose template has a prelude but no head — the prelude is dropped. -/
theorem wrapped_dynamic_prelude_head_witness :
    (∀ p hd, wPreludeOnly.layout.block.prelude = some p →
      wPreludeOnly.layout.block.head = some hd →
      wPreludeOnly.compile = CompileOutput.viaScanBlock
        (openGuardBlock (Expression.clientFunction 3) wPreludeOnly.attrs.buffer ::
          ((p ++ hd ++ wPreludeOnly.layout.block.statements) ++
            [closeGuardBlock (Expression.clientFunction 3)]))
        (wrappedDynamicTable wPreludeOnly) wPreludeOnly.env) ∧
    ((wPreludeOnly.layout.block.prelude = none ∨
      wPreludeOnly.layout.block.head = none) →
      wPreludeOnly.compile = CompileOutput.viaScanBlock
        (openGuardBlock (Expression.clientFunction 3) wPreludeOnly.attrs.buffer ::
          (wPreludeOnly.layout.block.statements ++
            [closeGuardBlock (Expression.clientFunction 3)]))
        (wrappedDynamicTable wPreludeOnly) wPreludeOnly.env) :=
  wrapped_dynamic_prelude_head_both_or_neither wPreludeOnly
    (Expression.clientFunction 3) rfl

/-- C4: for every successful dynamic component-invocation compilation the
emitted step sequence has length 23 with: component creation at index 12 and
destructor registration at index 13 (immediately after creation and strictly
before the transaction begin at index 14 and every later step); the
element-created signal at 18 and layout-rendered signal at 19; scope pop at
20 before dynamic-scope pop at 21; and the transaction commit at index 22 —
the last step, occurring exactly once in the sequence. -/
theorem dynamic_invocation_step_ordering
    (d : List Expression) (getDefinition : Nat) (args : ComponentArgs)
    (steps : List Step)
    (h : ComponentBuilder.dynamic (some d) getDefinition args =
      Except.ok steps) :
    steps.length = 23 ∧
    steps.get? 12 = some (Step.createComponent 1 true false) ∧
    steps.get? 13 = some (Step.registerComponentDestructor 1) ∧
    steps.get? 14 = some Step.beginComponentTransaction ∧
    steps.get? 18 = some (Step.didCreateElement 1) ∧
    steps.get? 19 = some (Step.didRenderLayout 1) ∧
    steps.get? 20 = some Step.popScope ∧
    steps.get? 21 = some Step.popDynamicScope ∧
    steps.get? 22 = some Step.commitComponentTransaction ∧
    List.count Step.commitComponentTransaction steps = 1 := by
  by_cases h0 : d.length = 0
  · exfalso
    rw [show ComponentBuilder.dynamic (some d) getDefinition args =
      Except.error "Dynamic syntax without an argument" by
        simp [ComponentBuilder.dynamic, h0]] at h
    exact Except.noConfusion h
  · rw [show ComponentBuilder.dynamic (some d) getDefinition args =
      Except.ok
        [Step.evalResolvedHelper getDefinition (d.get? 0) (d.get? 1),
         Step.setLocal 0, Step.getLocal 0, Step.test "simple",
         Step.jumpUnless "END", Step.pushDynamicComponentManager 0,
         Step.setComponentState 1, Step.pushBlock args.blockArg,
         Step.pushBlock args.inverse, Step.compiledArgs args.hash,
         Step.pushDynamicScope,
         Step.pushComponentArgs 0 args.hash.length,
         Step.createComponent 1 true false,
         Step.registerComponentDestructor 1,
         Step.beginComponentTransaction, Step.getComponentSelf 1,
         Step.getComponentLayout 1,
         Step.invokeDynamic (args.hash.map Prod.fst),
         Step.didCreateElement 1, Step.didRenderLayout 1, Step.popScope,
         Step.popDynamicScope, Step.commitComponentTransaction] by
        simp [ComponentBuilder.dynamic, h0]] at h
    injection h with hL
    subst hL
    refine ⟨rfl, rfl, rfl, rfl, rfl, rfl, rfl, rfl, rfl, ?_⟩
    simp [List.count_cons, List.count_nil]

/-- C4 witness: the theorem applied to the concrete invocation
`ComponentBuilder.dynamic (some [raw 0]) 0 argsEmpty`, whose step list is
`stepsConcrete`. -/
theorem dynamic_invocation_step_ordering_witness :
    stepsConcrete.length = 23 ∧
    stepsConcrete.get? 12 = some (Step.createComponent 1 true false) ∧
    stepsConcrete.get? 13 = some (Step.registerComponentDestructor 1) ∧
    stepsConcrete.get? 14 = some Step.beginComponentTransaction ∧
    stepsConcrete.get? 18 = some (Step.didCreateElement 1) ∧
    stepsConcrete.get? 19 = some (Step.didRenderLayout 1) ∧
    stepsConcrete.get? 20 = some Step.popScope ∧
    stepsConcrete.get? 21 = some Step.popDynamicScope ∧
    stepsConcrete.get? 22 = some Step.commitComponentTransaction ∧
    List.count Step.commitComponentTransaction stepsConcrete = 1 :=
  dynamic_invocation_step_ordering [Expression.raw 0] 0 argsEmpty
    stepsConcrete rfl

/-- C10: each bind call constructs a fresh strategy whose Attribute Buffer is
empty and (for Wrapped) whose Tag Descriptor is completely unset, for every
prior facade state — so configuration made before a rebind is discarded. -/
theorem rebind_discards_previous_configuration
    (b : ComponentLayoutBuilder) (l : WireTemplate) :
    (b.wrapLayout l).inner = some (InnerBuilder.wrapped
      { env := b.env, layout := l,
        tag := { isDynamic := none, isStatic := none,
                 staticTagName := none, dynamicTagName := none },
        attrs := { buffer := [] } }) ∧
    (b.fromLayout l).inner = some (InnerBuilder.unwrapped
      { env := b.env, layout := l, attrs := { buffer := [] } }) :=
  ⟨rfl, rfl⟩

end GlimmerCompiler
